import Mathlib

/-!
Shallow embedding of the client-side authentication logic of the
fullstack-auth-system repository (files `src/frontend/src/pages/Register.jsx`,
`Login.jsx` and `Dashboard.jsx`), together with theorems settling the claims
about it.  JavaScript strings are modelled as Lean `String` (`.length` counts
characters rather than UTF-16 units; this does not affect any claim), the
browser `localStorage` as a record of the two keys the code uses, and the
React component state plus its event handlers as explicit state passing.
-/

namespace FullstackAuth

/-! ## Register page (`Register.jsx`) -/

/-- Form state of the Register page: the six controlled inputs
(`formData` in `Register.jsx`). -/
structure RegisterForm where
  username : String
  email : String
  first_name : String
  last_name : String
  password : String
  password2 : String
deriving DecidableEq, Repr

/-- JavaScript `String.prototype.trim`: remove whitespace from both ends of
the string.  Implemented structurally over the character list so that it
reduces inside the kernel. -/
def jsTrim (s : String) : String :=
  ⟨((s.data.dropWhile Char.isWhitespace).reverse.dropWhile
      Char.isWhitespace).reverse⟩

/-- Character class `[^\s@]` of the email regular expression in
`Register.jsx` line 15: any character that is neither whitespace nor `@`. -/
def isEmailChar (c : Char) : Bool :=
  !c.isWhitespace && c ≠ '@'

/-- Split a list at the first occurrence of `c`: `splitFirst c l = some (a, b)`
when `l = a ++ c :: b` and `c ∉ a`; `none` when `c ∉ l`. -/
def splitFirst (c : Char) : List Char → Option (List Char × List Char)
  | [] => none
  | x :: xs =>
    if x = c then some ([], xs)
    else
      match splitFirst c xs with
      | none => none
      | some (a, b) => some (x :: a, b)

/-- Does the part after the `@` decompose as `[^\s@]+ "." [^\s@]+`?  Given that
every character of the list is already known to satisfy `isEmailChar` (which
admits `.`), this holds exactly when some `.` occurs at a position that is
neither the first nor the last, i.e. in the list with head and last element
removed. -/
def hasInnerDot (b : List Char) : Bool :=
  match b with
  | [] => false
  | _ :: rest => rest.dropLast.contains '.'

/-- The test `emailRegex.test s` for the pattern `^[^\s@]+@[^\s@]+\.[^\s@]+$`
of `Register.jsx` line 15: the string splits as `a ++ "@" ++ b` with `a`
nonempty and free of whitespace and `@`, and `b` free of whitespace and `@`
and decomposable around an inner dot. -/
def emailRegexTest (s : String) : Bool :=
  match splitFirst '@' s.data with
  | none => false
  | some (a, b) =>
    !a.isEmpty && a.all isEmailChar && b.all isEmailChar && hasInnerDot b

/-- Field-keyed error map built by `validateForm` in `Register.jsx`
(`newErrors`): each of the four validated keys is either absent (`none`) or
holds its message. -/
structure RegisterErrors where
  username : Option String
  email : Option String
  password : Option String
  password2 : Option String
deriving DecidableEq, Repr

/-- The `validateForm` function of `Register.jsx` lines 23–35, translated
check for check. -/
def validateForm (f : RegisterForm) : RegisterErrors :=
  { username :=
      if jsTrim f.username = "" then some "Username is required"
      else if f.username.length < 3 then some "At least 3 characters"
      else none
    email :=
      if jsTrim f.email = "" then some "Email is required"
      else if !emailRegexTest f.email then some "Enter a valid email"
      else none
    password :=
      if f.password = "" then some "Password is required"
      else if f.password.length < 8 then some "At least 8 characters"
      else none
    password2 :=
      if f.password2 = "" then some "Confirm your password"
      else if f.password ≠ f.password2 then some "Passwords do not match"
      else none }

/-- The boolean result of `validateForm` (`Object.keys(newErrors).length === 0`):
true exactly when the error map has no keys. -/
def validateFormOk (f : RegisterForm) : Bool :=
  (validateForm f).username.isNone && (validateForm f).email.isNone &&
    (validateForm f).password.isNone && (validateForm f).password2.isNone

/-- Outcome of submitting the Register form: either the register API request
is sent with the form data, or the field-keyed error map is set and nothing
is sent. -/
inductive RegisterAction where
  | sendRegister (f : RegisterForm)
  | showErrors (e : RegisterErrors)
deriving DecidableEq, Repr

/-- The `handleSubmit` function of `Register.jsx` lines 37–44 up to the
point the request is (or is not) issued: when `validateForm` fails the
handler returns with the error map set; otherwise it calls `register`. -/
def handleRegisterSubmit (f : RegisterForm) : RegisterAction :=
  if validateFormOk f then .sendRegister f else .showErrors (validateForm f)

/-- The error map with no keys (`{}` in the source). -/
def emptyRegisterErrors : RegisterErrors :=
  { username := none, email := none, password := none, password2 := none }

/-- Spec-side characterization of the four validation checks, written from the
claim wording (username non-empty after trim and length ≥ 3; email non-empty
after trim and matching the email regex; password non-empty and length ≥ 8;
password2 non-empty and equal to password), to be compared with the
source-translated `validateForm`. -/
def specRegisterChecks (f : RegisterForm) : Prop :=
  (jsTrim f.username ≠ "" ∧ 3 ≤ f.username.length) ∧
  (jsTrim f.email ≠ "" ∧ emailRegexTest f.email = true) ∧
  (f.password ≠ "" ∧ 8 ≤ f.password.length) ∧
  (f.password2 ≠ "" ∧ f.password2 = f.password)

instance : DecidablePred specRegisterChecks := fun f => by
  unfold specRegisterChecks; infer_instance

/-! ## Login page (`Login.jsx`) and client session state -/

/-- Browser `localStorage` restricted to the two fixed keys the client uses,
`token` and `refreshToken`; `none` models an absent key. -/
structure Storage where
  token : Option String
  refreshToken : Option String
deriving DecidableEq, Repr

/-- JavaScript truthiness of an optional string field: the field is present
and its value is non-empty. -/
def truthy : Option String → Bool
  | none => false
  | some s => !(s == "")

/-- Body of a login response as read by `handleSubmit` in `Login.jsx`
lines 36 and 40: the optional `access`, `refresh` and `token` fields. -/
structure LoginData where
  access : Option String
  refresh : Option String
  token : Option String
deriving DecidableEq, Repr

/-- Error state of the Login page: the keys its handlers write
(`username`, `password` from `validateForm`; `general` from the catch
branch). -/
structure LoginErrors where
  username : Option String
  password : Option String
  general : Option String
deriving DecidableEq, Repr

/-- The empty error object `{}`. -/
def emptyLoginErrors : LoginErrors :=
  { username := none, password := none, general := none }

/-- Observable outcome of the resolved-promise branch of `handleSubmit`:
resulting storage, whether `navigate` was called, and the error state
(reset to `{}` at line 32 and untouched afterwards on this branch). -/
structure LoginOutcome where
  storage : Storage
  navigatedToDashboard : Bool
  errors : LoginErrors
deriving DecidableEq, Repr

/-- The successful-response branch of `handleSubmit` in `Login.jsx`
lines 34–43: when `response.data?.access` is truthy the access token is
stored under `token` (and a truthy `refresh` under `refreshToken`) and the
client navigates to the dashboard; otherwise when `response.data?.token` is
truthy that token is stored and the client navigates; otherwise nothing
happens. -/
def loginResolve (st : Storage) (d : LoginData) : LoginOutcome :=
  if truthy d.access then
    { storage :=
        { token := d.access
          refreshToken := if truthy d.refresh then d.refresh else st.refreshToken }
      navigatedToDashboard := true
      errors := emptyLoginErrors }
  else if truthy d.token then
    { storage := { token := d.token, refreshToken := st.refreshToken }
      navigatedToDashboard := true
      errors := emptyLoginErrors }
  else
    { storage := st, navigatedToDashboard := false, errors := emptyLoginErrors }

/-- Shape of a failed login attempt as inspected by the catch branch of
`handleSubmit` (`Login.jsx` lines 44–51): either a server response whose
data may carry a `detail` field, or no server response at all. -/
inductive LoginFailure where
  | serverResponse (detail : Option String)
  | noResponse
deriving DecidableEq, Repr

/-- The catch branch of `handleSubmit` in `Login.jsx` lines 44–51: a truthy
`detail` is surfaced as the general error; a response without truthy
`detail` yields the generic invalid-credentials message; no response yields
the connectivity message. -/
def loginReject : LoginFailure → LoginErrors
  | .serverResponse d =>
    if truthy d then { username := none, password := none, general := d }
    else
      { username := none, password := none
        general := some "Invalid credentials. Please try again." }
  | .noResponse =>
    { username := none, password := none
      general := some "Unable to connect. Please try again later." }

/-- The `handleLogout` handler of `Dashboard.jsx` lines 59–63: both
storage keys are removed (and the client navigates to the login page). -/
def handleLogout (_st : Storage) : Storage :=
  { token := none, refreshToken := none }

/-- Storage effect of the catch branch of `fetchProfile` in `Dashboard.jsx`
lines 29–32: on any profile-fetch failure both storage keys are removed
(and the client navigates to the login page). -/
def profileFetchFailureStorage (_st : Storage) : Storage :=
  { token := none, refreshToken := none }

/-! ## Dashboard page (`Dashboard.jsx`) -/

/-- A row of the admin user-management table, as returned by `getUsers` and
consumed by the table body, `handleEditClick` and `handleDeleteUser`. -/
structure UserRow where
  id : Nat
  username : String
  email : String
  first_name : String
  last_name : String
  full_name : String
  is_active : Bool
  is_staff : Bool
  is_superuser : Bool
deriving DecidableEq, Repr

/-- The authenticated caller's record as returned by `getProfile` and held in
the `user` state of the Dashboard. -/
structure ProfileRecord where
  id : Nat
  username : String
  email : String
  first_name : String
  last_name : String
  is_staff : Bool
  is_superuser : Bool
deriving DecidableEq, Repr

/-- The admin classification computed in `fetchProfile`
(`Dashboard.jsx` line 28): `is_staff || is_superuser`. -/
def isAdminOf (p : ProfileRecord) : Bool :=
  p.is_staff || p.is_superuser

/-- Value of one edit-form field: the text inputs store strings, the two
checkboxes store booleans (`handleEditChange` line 86). -/
inductive FieldValue where
  | str (s : String)
  | bool (b : Bool)
deriving DecidableEq, Repr

/-- The `editForm` JavaScript object: a partial map from field names to
values. -/
def EditForm : Type := String → Option FieldValue

/-- Names of the inputs rendered inside the edit modal
(`Dashboard.jsx` lines 339–403): these are the only `name` attributes
`handleEditChange` can ever receive. -/
def editInputNames : List String :=
  ["username", "email", "first_name", "last_name", "is_active", "is_staff"]

/-- `handleEditClick` (`Dashboard.jsx` lines 69–80): the edit form is
initialized with exactly the six listed fields of the target row. -/
def handleEditClick (u : UserRow) : EditForm := fun k =>
  if k = "username" then some (.str u.username)
  else if k = "email" then some (.str u.email)
  else if k = "first_name" then some (.str u.first_name)
  else if k = "last_name" then some (.str u.last_name)
  else if k = "is_active" then some (.bool u.is_active)
  else if k = "is_staff" then some (.bool u.is_staff)
  else none

/-- `handleEditChange` (`Dashboard.jsx` lines 82–88): the object spread
`{...prev, [name]: value}` updates one key and keeps the rest. -/
def handleEditChange (name : String) (v : FieldValue) (f : EditForm) :
    EditForm :=
  fun k => if k = name then some v else f k

/-- A sequence of `handleEditChange` applications, oldest first. -/
def applyEditChanges (f : EditForm) : List (String × FieldValue) → EditForm
  | [] => f
  | (n, v) :: rest => applyEditChanges (handleEditChange n v f) rest

/-- Render guard of the delete button (`Dashboard.jsx` line 299):
`!u.is_superuser && u.id !== user?.id`; with no profile loaded `user?.id` is
`undefined` and the inequality holds. -/
def deleteButtonShown (user : Option ProfileRecord) (u : UserRow) : Bool :=
  !u.is_superuser &&
    (match user with
     | some me => u.id != me.id
     | none => true)

/-- API requests the Dashboard can issue
(`getProfile`, `getUsers`, `updateUser`, `deleteUser` from the api module). -/
inductive Request where
  | getProfile
  | getUsers (q : String)
  | updateUser (id : Nat) (body : EditForm)
  | deleteUser (id : Nat)

/-- Discriminator for user-list requests. -/
def Request.isGetUsers : Request → Bool
  | .getUsers _ => true
  | _ => false

/-- Component state of the Dashboard relevant to the claims: the `user`,
`isAdmin`, `searchQuery`, `users`, `editingUser` and `editForm` pieces of
React state. -/
structure DashState where
  user : Option ProfileRecord
  isAdmin : Bool
  searchQuery : String
  users : List UserRow
  editingUser : Option UserRow
  editForm : EditForm

/-- Initial Dashboard state (`useState` calls, lines 8–17). -/
def initDash : DashState :=
  { user := none, isAdmin := false, searchQuery := "", users := [],
    editingUser := none, editForm := fun _ => none }

/-- Whether the admin panel (user list, edit, delete) is rendered
(`Dashboard.jsx` line 223: `{isAdmin && (...)}`). -/
def adminPanelShown (s : DashState) : Bool :=
  s.isAdmin

/-- Resolution of `getProfile` in `fetchProfile` (lines 25–28) together with
the user-list effect (lines 41–45): the profile is stored, `isAdmin` is set
to `is_staff || is_superuser`, and when it is set the list request for the
current query is issued. -/
def fetchProfileSuccess (p : ProfileRecord) (s : DashState) :
    DashState × List Request :=
  ({ s with user := some p, isAdmin := isAdminOf p },
   if isAdminOf p then [Request.getUsers s.searchQuery] else [])

/-- `handleSearch` (lines 65–67) together with the user-list effect
(lines 41–45): the query is stored and, when the caller is an admin, the
list request for the new query is issued. -/
def handleSearch (q : String) (s : DashState) : DashState × List Request :=
  ({ s with searchQuery := q }, if s.isAdmin then [Request.getUsers q] else [])

/-- Session events the Dashboard reacts to.  Each models one handler of
`Dashboard.jsx`; events attached to elements that are only rendered under a
condition are enabled only under that condition. -/
inductive DashEvent where
  | profileSuccess
  | profileFailure
  | search (q : String)
  | usersLoaded (rows : List UserRow)
  | editClick (u : UserRow)
  | editChange (name : String) (v : FieldValue)
  | editCancel
  | editSubmit
  | deleteConfirm (u : UserRow)

/-- One step of the Dashboard in a session whose authenticated caller has
profile `p`: `none` when the event's source element is not rendered (or the
modal is closed), otherwise the successor state and the requests issued.
`editClick` and `deleteConfirm` require the admin panel and the row's button
to be rendered; `editChange` and `editSubmit` require the modal to be open;
`editSubmit` and `deleteConfirm` re-issue the list request (`fetchUsers`
calls at lines 96 and 112). -/
def step (p : ProfileRecord) (s : DashState) :
    DashEvent → Option (DashState × List Request)
  | .profileSuccess => some (fetchProfileSuccess p s)
  | .profileFailure => some (s, [])
  | .search q => some (handleSearch q s)
  | .usersLoaded rows => some ({ s with users := rows }, [])
  | .editClick u =>
    if s.isAdmin && s.users.contains u then
      some ({ s with editingUser := some u, editForm := handleEditClick u }, [])
    else none
  | .editChange n v =>
    if s.editingUser.isSome && editInputNames.contains n then
      some ({ s with editForm := handleEditChange n v s.editForm }, [])
    else none
  | .editCancel => some ({ s with editingUser := none }, [])
  | .editSubmit =>
    match s.editingUser with
    | some e =>
      some ({ s with editingUser := none },
        [Request.updateUser e.id s.editForm, Request.getUsers s.searchQuery])
    | none => none
  | .deleteConfirm u =>
    if s.isAdmin && s.users.contains u && deleteButtonShown s.user u then
      some (s, [Request.deleteUser u.id, Request.getUsers s.searchQuery])
    else none

/-- Run a session: apply the events in order, skipping disabled ones, and
collect every request issued. -/
def run (p : ProfileRecord) (s : DashState) :
    List DashEvent → DashState × List Request
  | [] => (s, [])
  | e :: es =>
    match step p s e with
    | none => run p s es
    | some (s2, rs) =>
      let out := run p s2 es
      (out.1, rs ++ out.2)

/-- Invariant of a session whose caller is classified non-admin: the admin
flag is down and no edit modal is open. -/
def NonAdminState (s : DashState) : Prop :=
  s.isAdmin = false ∧ s.editingUser = none

/-! ## Theorems -/

theorem validateForm_username_eq_none (f : RegisterForm) :
    (validateForm f).username = none ↔
      jsTrim f.username ≠ "" ∧ 3 ≤ f.username.length := by
  simp only [validateForm]
  split_ifs with h1 h2 <;> simp_all

theorem validateForm_email_eq_none (f : RegisterForm) :
    (validateForm f).email = none ↔
      jsTrim f.email ≠ "" ∧ emailRegexTest f.email = true := by
  simp only [validateForm]
  split_ifs with h1 h2 <;> simp_all

theorem validateForm_password_eq_none (f : RegisterForm) :
    (validateForm f).password = none ↔
      f.password ≠ "" ∧ 8 ≤ f.password.length := by
  simp only [validateForm]
  split_ifs with h1 h2 <;> simp_all

theorem validateForm_password2_eq_none (f : RegisterForm) :
    (validateForm f).password2 = none ↔
      f.password2 ≠ "" ∧ f.password2 = f.password := by
  simp only [validateForm]
  split_ifs with h1 h2 <;> simp_all
  exact fun h => (h2 h.symm).elim

theorem validateFormOk_iff (f : RegisterForm) :
    validateFormOk f = true ↔ specRegisterChecks f := by
  simp only [validateFormOk, specRegisterChecks, Bool.and_eq_true,
    Option.isNone_iff_eq_none, validateForm_username_eq_none,
    validateForm_email_eq_none, validateForm_password_eq_none,
    validateForm_password2_eq_none]
  tauto

/-- C3: submitting the Register form calls the register API if and only if
all four validation checks pass (username non-empty after trim and of length
at least 3; email non-empty after trim and matching the email regex; password
non-empty and of length at least 8; password2 non-empty and equal to
password); when any check fails, no request is sent and the field-keyed
error map produced by `validateForm` is set instead, and that map is
non-empty. -/
theorem register_submit_iff_checks (f : RegisterForm) :
    (handleRegisterSubmit f = .sendRegister f ↔ specRegisterChecks f) ∧
    (¬ specRegisterChecks f →
      handleRegisterSubmit f = .showErrors (validateForm f) ∧
      validateForm f ≠ emptyRegisterErrors) := by
  constructor
  · rw [← validateFormOk_iff]
    unfold handleRegisterSubmit
    split_ifs with h <;> simp [h]
  · intro hfail
    have hok : ¬ validateFormOk f = true :=
      fun h => hfail ((validateFormOk_iff f).mp h)
    refine ⟨by simp [handleRegisterSubmit, hok], ?_⟩
    intro hempty
    apply hfail
    rw [← validateFormOk_iff]
    simp only [validateFormOk, hempty, emptyRegisterErrors, Option.isNone_none,
      Bool.and_self]

/-- Witness for C3: a concrete form failing the password-length check is
routed to `showErrors` with a non-empty error map. -/
theorem register_submit_iff_checks_witness :
    handleRegisterSubmit
        { username := "bob12", email := "bob@x.com", first_name := "",
          last_name := "", password := "short", password2 := "short" } =
      .showErrors (validateForm
        { username := "bob12", email := "bob@x.com", first_name := "",
          last_name := "", password := "short", password2 := "short" }) :=
  ((register_submit_iff_checks _).2 (by decide)).1

/-- C5: a form whose username is non-empty after trimming but shorter than 3
characters always receives an error under the username key and the register
request is not sent. -/
theorem register_short_username_rejected (f : RegisterForm)
    (h1 : jsTrim f.username ≠ "") (h2 : f.username.length < 3) :
    (validateForm f).username = some "At least 3 characters" ∧
    handleRegisterSubmit f = .showErrors (validateForm f) := by
  have hu : (validateForm f).username = some "At least 3 characters" := by
    simp only [validateForm]
    rw [if_neg h1, if_pos h2]
  refine ⟨hu, ?_⟩
  have hok : ¬ validateFormOk f = true := by
    intro h
    have hn := ((validateFormOk_iff f).mp h).1
    rw [← validateForm_username_eq_none, hu] at hn
    exact Option.some_ne_none _ hn
  simp [handleRegisterSubmit, hok]

/-- Witness for C5: the concrete username "ab" (length 2) is rejected with a
username-field error and no request. -/
theorem register_short_username_rejected_witness :
    (validateForm
        { username := "ab", email := "a@b.c", first_name := "",
          last_name := "", password := "longenough1",
          password2 := "longenough1" }).username =
      some "At least 3 characters" :=
  (register_short_username_rejected _ (by decide) (by decide)).1

/-- C6: a form whose password2 is non-empty and differs from password always
receives an error under the password2 key and the register request is not
sent. -/
theorem register_password_mismatch_rejected (f : RegisterForm)
    (h1 : f.password2 ≠ "") (h2 : f.password ≠ f.password2) :
    (validateForm f).password2 = some "Passwords do not match" ∧
    handleRegisterSubmit f = .showErrors (validateForm f) := by
  have hp : (validateForm f).password2 = some "Passwords do not match" := by
    simp only [validateForm]
    rw [if_neg h1, if_pos h2]
  refine ⟨hp, ?_⟩
  have hok : ¬ validateFormOk f = true := by
    intro h
    have hn := ((validateFormOk_iff f).mp h).2.2.2
    rw [← validateForm_password2_eq_none, hp] at hn
    exact Option.some_ne_none _ hn
  simp [handleRegisterSubmit, hok]

/-- Witness for C6: concrete mismatched passwords are rejected with a
password2-field error. -/
theorem register_password_mismatch_rejected_witness :
    (validateForm
        { username := "bob12", email := "a@b.c", first_name := "",
          last_name := "", password := "longenough1",
          password2 := "different2" }).password2 =
      some "Passwords do not match" :=
  (register_password_mismatch_rejected _ (by decide) (by decide)).1

/-- C4: the client session invariant over the fixed keys `token` and
`refreshToken`: a successful login with a truthy access token stores it
under `token` (and a truthy refresh token under `refreshToken`), while
logout and any profile-fetch failure remove both keys. -/
theorem session_storage_lifecycle (st : Storage) (d : LoginData) :
    (truthy d.access = true →
      (loginResolve st d).storage.token = d.access ∧
      (truthy d.refresh = true →
        (loginResolve st d).storage.refreshToken = d.refresh)) ∧
    handleLogout st = { token := none, refreshToken := none } ∧
    profileFetchFailureStorage st = { token := none, refreshToken := none } := by
  refine ⟨fun ha => ⟨?_, fun hr => ?_⟩, rfl, rfl⟩
  · simp [loginResolve, ha]
  · simp [loginResolve, ha, hr]

/-- Witness for C4: a concrete login response carrying access and refresh
tokens is stored under both keys. -/
theorem session_storage_lifecycle_witness :
    (loginResolve { token := none, refreshToken := none }
        { access := some "acc1", refresh := some "ref1", token := none
        }).storage.token = some "acc1" :=
  ((session_storage_lifecycle _ _).1 (by decide)).1

/-- C7: every failed login attempt surfaces a single general message and no
field-specific one: a truthy `detail` is shown verbatim, a server response
without `detail` yields the generic invalid-credentials message, and the
absence of a server response yields the connectivity message. -/
theorem login_failure_general_only (e : LoginFailure) :
    ((loginReject e).username = none ∧ (loginReject e).password = none ∧
      (loginReject e).general ≠ none) ∧
    (∀ d : String, d ≠ "" →
      loginReject (.serverResponse (some d)) =
        { username := none, password := none, general := some d }) ∧
    loginReject (.serverResponse none) =
      { username := none, password := none
        general := some "Invalid credentials. Please try again." } ∧
    loginReject .noResponse =
      { username := none, password := none
        general := some "Unable to connect. Please try again later." } := by
  refine ⟨?_, fun d hd => ?_, rfl, rfl⟩
  · rcases e with d | _
    · simp only [loginReject]
      split_ifs with h
      · rcases d with _ | s
        · simp [truthy] at h
        · simp
      · simp
    · simp [loginReject]
  · simp [loginReject, truthy, hd]

/-- Witness for C7: a concrete server `detail` text is surfaced verbatim as
the general error. -/
theorem login_failure_general_only_witness :
    loginReject (.serverResponse (some "No active account")) =
      { username := none, password := none,
        general := some "No active account" } :=
  (login_failure_general_only .noResponse).2.1 "No active account" (by decide)

/-- C10: a successful login response carrying neither an `access` nor a
`token` field leaves storage untouched, performs no navigation and displays
no error: the attempt is a silent no-op. -/
theorem login_missing_token_silent (st : Storage) (d : LoginData)
    (h1 : d.access = none) (h2 : d.token = none) :
    loginResolve st d =
      { storage := st, navigatedToDashboard := false,
        errors := emptyLoginErrors } := by
  simp [loginResolve, h1, h2, truthy]

/-- Witness for C10: a concrete response with neither field is a no-op on a
concrete storage state. -/
theorem login_missing_token_silent_witness :
    loginResolve { token := some "old", refreshToken := none }
        { access := none, refresh := some "r", token := none } =
      { storage := { token := some "old", refreshToken := none },
        navigatedToDashboard := false, errors := emptyLoginErrors } :=
  login_missing_token_silent _ _ (by decide) (by decide)

/-- C1: resolving the profile classifies the caller as admin exactly when
`is_staff OR is_superuser` holds on the fetched record, and the admin panel
is rendered if and only if at least one of the two flags is true. -/
theorem admin_panel_iff_flags (p : ProfileRecord) (s : DashState) :
    (fetchProfileSuccess p s).1.isAdmin = (p.is_staff || p.is_superuser) ∧
    (adminPanelShown (fetchProfileSuccess p s).1 = true ↔
      (p.is_staff = true ∨ p.is_superuser = true)) := by
  refine ⟨rfl, ?_⟩
  simp [adminPanelShown, fetchProfileSuccess, isAdminOf, Bool.or_eq_true]

theorem handleEditClick_domain (u : UserRow) (k : String) :
    (handleEditClick u k).isSome = true ↔ k ∈ editInputNames := by
  simp only [handleEditClick, editInputNames, List.mem_cons,
    List.not_mem_nil, or_false]
  split_ifs with h1 h2 h3 h4 h5 h6 <;> simp_all

theorem applyEditChanges_domain (cs : List (String × FieldValue))
    (f : EditForm) (hcs : ∀ q ∈ cs, q.1 ∈ editInputNames)
    (hf : ∀ k, (f k).isSome = true ↔ k ∈ editInputNames) :
    ∀ k, (applyEditChanges f cs k).isSome = true ↔ k ∈ editInputNames := by
  induction cs generalizing f with
  | nil => exact hf
  | cons q rest ih =>
    obtain ⟨n, v⟩ := q
    simp only [applyEditChanges]
    refine ih (handleEditChange n v f)
      (fun r hr => hcs r (List.mem_cons_of_mem _ hr)) ?_
    intro k
    simp only [handleEditChange]
    split_ifs with hk
    · simp only [Option.isSome_some, true_iff]
      subst hk
      exact hcs (k, v) (List.mem_cons_self _ _)
    · exact hf k

/-- C8: starting from `handleEditClick` on any row and applying any sequence
of modal edits, the submitted form holds exactly the six fields `username`,
`email`, `first_name`, `last_name`, `is_active` and `is_staff`; in
particular the `is_superuser` key is never present in the update request. -/
theorem edit_request_exact_fields (u : UserRow)
    (cs : List (String × FieldValue))
    (hcs : ∀ q ∈ cs, q.1 ∈ editInputNames) :
    (∀ k, (applyEditChanges (handleEditClick u) cs k).isSome = true ↔
      k ∈ editInputNames) ∧
    applyEditChanges (handleEditClick u) cs "is_superuser" = none := by
  have hdom :=
    applyEditChanges_domain cs (handleEditClick u) hcs (handleEditClick_domain u)
  refine ⟨hdom, ?_⟩
  rw [← Option.not_isSome_iff_eq_none]
  intro hs
  have hmem : ("is_superuser" : String) ∈ editInputNames :=
    (hdom "is_superuser").mp hs
  simp [editInputNames] at hmem

/-- Witness for C8: a concrete edited form still lacks the `is_superuser`
key. -/
theorem edit_request_exact_fields_witness :
    applyEditChanges
        (handleEditClick
          { id := 2, username := "eve", email := "eve@x.com",
            first_name := "E", last_name := "V", full_name := "E V",
            is_active := true, is_staff := false, is_superuser := false })
        [("email", FieldValue.str "new@x.com")] "is_superuser" = none :=
  (edit_request_exact_fields _ _ (by decide)).2

theorem step_nonadmin (p : ProfileRecord) (hp : isAdminOf p = false)
    (s : DashState) (e : DashEvent) (hs : NonAdminState s) :
    ∀ s2 rs, step p s e = some (s2, rs) →
      NonAdminState s2 ∧ rs.any Request.isGetUsers = false := by
  obtain ⟨hA, hE⟩ := hs
  intro s2 rs hstep
  cases e with
  | profileSuccess =>
    simp only [step, fetchProfileSuccess, hp, Bool.false_eq_true, if_false,
      Option.some.injEq, Prod.mk.injEq] at hstep
    obtain ⟨rfl, rfl⟩ := hstep
    exact ⟨⟨rfl, hE⟩, rfl⟩
  | profileFailure =>
    simp only [step, Option.some.injEq, Prod.mk.injEq] at hstep
    obtain ⟨rfl, rfl⟩ := hstep
    exact ⟨⟨hA, hE⟩, rfl⟩
  | search q =>
    simp only [step, handleSearch, hA, Bool.false_eq_true, if_false,
      Option.some.injEq, Prod.mk.injEq] at hstep
    obtain ⟨rfl, rfl⟩ := hstep
    exact ⟨⟨rfl, hE⟩, rfl⟩
  | usersLoaded rows =>
    simp only [step, Option.some.injEq, Prod.mk.injEq] at hstep
    obtain ⟨rfl, rfl⟩ := hstep
    exact ⟨⟨hA, hE⟩, rfl⟩
  | editClick u =>
    simp [step, hA] at hstep
  | editChange n v =>
    simp [step, hE] at hstep
  | editCancel =>
    simp only [step, Option.some.injEq, Prod.mk.injEq] at hstep
    obtain ⟨rfl, rfl⟩ := hstep
    exact ⟨⟨hA, rfl⟩, rfl⟩
  | editSubmit =>
    simp [step, hE] at hstep
  | deleteConfirm u =>
    simp [step, hA] at hstep

theorem run_nonadmin (p : ProfileRecord) (hp : isAdminOf p = false)
    (es : List DashEvent) :
    ∀ s, NonAdminState s →
      NonAdminState (run p s es).1 ∧
      (run p s es).2.any Request.isGetUsers = false := by
  induction es with
  | nil => exact fun s hs => ⟨hs, rfl⟩
  | cons e rest ih =>
    intro s hs
    simp only [run]
    cases hstep : step p s e with
    | none => exact ih s hs
    | some out =>
      obtain ⟨s2, rs⟩ := out
      obtain ⟨h2, hrs⟩ := step_nonadmin p hp s e hs s2 rs hstep
      obtain ⟨hI, hrest⟩ := ih s2 h2
      exact ⟨hI, by simp [List.any_append, hrs, hrest]⟩

/-- C9: in every session whose authenticated caller has neither `is_staff`
nor `is_superuser` set, the Dashboard never issues a user-list request. -/
theorem nonadmin_never_lists (p : ProfileRecord) (es : List DashEvent)
    (h1 : p.is_staff = false) (h2 : p.is_superuser = false) :
    (run p initDash es).2.any Request.isGetUsers = false := by
  have hp : isAdminOf p = false := by simp [isAdminOf, h1, h2]
  exact (run_nonadmin p hp es initDash ⟨rfl, rfl⟩).2

/-- Witness for C9: a concrete non-admin session with a profile resolution
and a search issues no user-list request. -/
theorem nonadmin_never_lists_witness :
    (run
        { id := 7, username := "bob", email := "b@x.y", first_name := "",
          last_name := "", is_staff := false, is_superuser := false }
        initDash [DashEvent.profileSuccess, DashEvent.search "x"]).2.any
      Request.isGetUsers = false :=
  nonadmin_never_lists _ _ rfl rfl

theorem step_user_inv (p : ProfileRecord) (s : DashState) (e : DashEvent)
    (hs : s.isAdmin = true → s.user = some p) :
    ∀ s2 rs, step p s e = some (s2, rs) →
      (s2.isAdmin = true → s2.user = some p) := by
  intro s2 rs hstep
  cases e with
  | profileSuccess =>
    simp only [step, fetchProfileSuccess, Option.some.injEq,
      Prod.mk.injEq] at hstep
    obtain ⟨rfl, rfl⟩ := hstep
    exact fun _ => rfl
  | profileFailure =>
    simp only [step, Option.some.injEq, Prod.mk.injEq] at hstep
    obtain ⟨rfl, rfl⟩ := hstep
    exact hs
  | search q =>
    simp only [step, handleSearch, Option.some.injEq, Prod.mk.injEq] at hstep
    obtain ⟨rfl, rfl⟩ := hstep
    exact hs
  | usersLoaded rows =>
    simp only [step, Option.some.injEq, Prod.mk.injEq] at hstep
    obtain ⟨rfl, rfl⟩ := hstep
    exact hs
  | editClick u =>
    simp only [step] at hstep
    split_ifs at hstep with hc
    simp only [Option.some.injEq, Prod.mk.injEq] at hstep
    obtain ⟨rfl, rfl⟩ := hstep
    exact hs
  | editChange n v =>
    simp only [step] at hstep
    split_ifs at hstep with hc
    simp only [Option.some.injEq, Prod.mk.injEq] at hstep
    obtain ⟨rfl, rfl⟩ := hstep
    exact hs
  | editCancel =>
    simp only [step, Option.some.injEq, Prod.mk.injEq] at hstep
    obtain ⟨rfl, rfl⟩ := hstep
    exact hs
  | editSubmit =>
    cases hu : s.editingUser with
    | none => simp [step, hu] at hstep
    | some eu =>
      simp only [step, hu, Option.some.injEq, Prod.mk.injEq] at hstep
      obtain ⟨rfl, rfl⟩ := hstep
      exact hs
  | deleteConfirm u =>
    simp only [step] at hstep
    split_ifs at hstep with hc
    simp only [Option.some.injEq, Prod.mk.injEq] at hstep
    obtain ⟨rfl, rfl⟩ := hstep
    exact hs

theorem run_user_inv (p : ProfileRecord) (es : List DashEvent) :
    ∀ s, (s.isAdmin = true → s.user = some p) →
      ((run p s es).1.isAdmin = true → (run p s es).1.user = some p) := by
  induction es with
  | nil => exact fun s hs => hs
  | cons e rest ih =>
    intro s hs
    simp only [run]
    cases hstep : step p s e with
    | none => exact ih s hs
    | some out =>
      obtain ⟨s2, rs⟩ := out
      exact ih s2 (step_user_inv p s e hs s2 rs hstep)

/-- C2: in every reachable Dashboard state of a session with caller `p`, the
delete action on a row `u` can fire only when `u` is not a superuser and
`u.id` differs from the caller's id; moreover the render guard of the delete
button holds exactly when both conditions do. -/
theorem delete_action_guard (p : ProfileRecord) (es : List DashEvent)
    (u : UserRow)
    (h : (step p (run p initDash es).1 (.deleteConfirm u)).isSome = true) :
    (u.is_superuser = false ∧ u.id ≠ p.id) ∧
    ∀ v : UserRow,
      deleteButtonShown (some p) v = true ↔
        (v.is_superuser = false ∧ v.id ≠ p.id) := by
  constructor
  · have hinv : (run p initDash es).1.isAdmin = true →
        (run p initDash es).1.user = some p := by
      refine run_user_inv p es initDash ?_
      intro h0
      simp [initDash] at h0
    simp only [step] at h
    split_ifs at h with hc
    · obtain ⟨⟨hA, _⟩, hD⟩ := by
        simpa [Bool.and_eq_true] using hc
      rw [hinv hA] at hD
      simpa [deleteButtonShown, Bool.and_eq_true, Bool.not_eq_true'] using hD
    · simp at h
  · intro v
    simp [deleteButtonShown, Bool.and_eq_true, Bool.not_eq_true']

/-- Witness for C2: in a concrete admin session a non-superuser row with an
id different from the caller's can be deleted, and the guard facts hold. -/
theorem delete_action_guard_witness :
    ((UserRow.is_superuser
        { id := 2, username := "eve", email := "e@x.y", first_name := "",
          last_name := "", full_name := "", is_active := true,
          is_staff := false, is_superuser := false }) = false ∧
      (2 : Nat) ≠ 1) :=
  (delete_action_guard
    { id := 1, username := "root", email := "r@x.y", first_name := "",
      last_name := "", is_staff := true, is_superuser := false }
    [DashEvent.profileSuccess,
     DashEvent.usersLoaded
       [{ id := 2, username := "eve", email := "e@x.y", first_name := "",
          last_name := "", full_name := "", is_active := true,
          is_staff := false, is_superuser := false }]]
    { id := 2, username := "eve", email := "e@x.y", first_name := "",
      last_name := "", full_name := "", is_active := true,
      is_staff := false, is_superuser := false }
    (by decide)).1

end FullstackAuth
